import Mathlib

/-!
Verification of the QChat real-time conversation relay (frontend).

This file gives a shallow embedding, in Lean 4, of the client-side logic of
the QChat recruiting-assistant chat application:

* the message dedup / reconciliation logic of `ChatLayout.tsx`
  (`ws.onmessage`, `addMessage`) and of the candidate chat page
  (`CandidateChat`: `ws.onmessage`, `handleSubmit`),
* the WebSocket reconnection controller of `VoiceInteraction`
  (`connectWebSocket`: `onopen` / `onclose`),
* the energy-threshold voice-activity-detection loop (`analyseAudio`),
* the voice playback sequencer (`playPreliminaryResponse`,
  `handleAudioEnded`, response preemption in `onmessage`),
* the filler-clip rotation (`getNextPreliminaryAudio`).

Pure functions of the source become Lean functions; the stateful callback
soup becomes explicit step functions on small state structures, folded over
event lists.  JavaScript millisecond timestamps are `Int`; the audio RMS
level is `Rat`.
-/

namespace QChat

/-- One member record of `media_data.members` (leadership cards). -/
structure LeadershipMember where
  name : String
  title : String
  url : String
deriving DecidableEq, Repr

/-- The `media_data` payload attached to some assistant messages.
Structural (JSON) equality of the source is `DecidableEq` here. -/
structure MediaData where
  type : String
  url : Option String
  members : Option (List LeadershipMember)
deriving DecidableEq, Repr

/-- A transcript entry as held in the React `messages` state.  `timestamp`
is the JavaScript epoch-millisecond value (`Date.getTime()`).  The
`ChatLayout.tsx` variant of the interface has no `media_data` / `isTyping`
fields; those are `none` / `false` there. -/
structure Message where
  id : Nat
  role : String
  content : String
  timestamp : Int
  media_data : Option MediaData := none
  isTyping : Bool := false
deriving DecidableEq, Repr

/-! ## Message Reconciler: dedup at the three call sites -/

/-- Duplicate test of `ChatLayout.tsx` (`ws.onmessage` and `addMessage`):
same role, same content, timestamps strictly less than 1000 ms apart. -/
def isDuplicateTs (prev : List Message) (m : Message) : Bool :=
  prev.any fun msg =>
    msg.role == m.role && msg.content == m.content &&
      (msg.timestamp - m.timestamp).natAbs < 1000

/-- `ws.onmessage` message branch of `ChatLayout.tsx` (lines 280-307):
discard the incoming message if `isDuplicateTs`, else append at the tail. -/
def wsInsertChatLayout (prev : List Message) (m : Message) : List Message :=
  if isDuplicateTs prev m then prev else prev ++ [m]

/-- Duplicate test of the candidate page `ws.onmessage` (part_002 lines
408-414): same role, same content, and structural equality of `media_data`
(`JSON.stringify` comparison); there is no timestamp condition. -/
def isDuplicateMedia (prev : List Message) (m : Message) : Bool :=
  prev.any fun msg =>
    msg.role == m.role && msg.content == m.content &&
      msg.media_data == m.media_data

/-- Removal of typing placeholders:
`setMessages(prev => prev.filter(msg => !msg.isTyping))`. -/
def clearTyping (prev : List Message) : List Message :=
  prev.filter fun msg => !msg.isTyping

/-- Candidate page `ws.onmessage` message branch (part_002 lines 378-420):
first drop every `isTyping` placeholder, then discard the incoming message
if `isDuplicateMedia`, else append at the tail. -/
def wsInsertCandidate (prev : List Message) (m : Message) : List Message :=
  let cleared := clearTyping prev
  if isDuplicateMedia cleared m then cleared else cleared ++ [m]

/-- `addMessage(sessionId, message)` of `ChatLayout.tsx` (lines 349-365):
only touches the transcript when `sessionId === selectedSession`; then
dedups by `isDuplicateTs` and appends at the tail. -/
def addMessage (selectedSession : Option String) (sessionId : String)
    (prev : List Message) (m : Message) : List Message :=
  if selectedSession == some sessionId then
    if isDuplicateTs prev m then prev else prev ++ [m]
  else prev

/-- Dedup rule as the specification words it (refinement target for C1):
duplicate iff same role, same content, timestamps within `deltaT`, and, for
assistant messages, structural equality of `media_data`. -/
def specIsDuplicate (prev : List Message) (m : Message) (deltaT : Nat) : Bool :=
  prev.any fun msg =>
    msg.role == m.role && msg.content == m.content &&
      (msg.timestamp - m.timestamp).natAbs < deltaT &&
      (m.role != "assistant" || msg.media_data == m.media_data)

/-! ## Candidate page `handleSubmit` (part_002 lines 537-633) -/

/-- The optimistic candidate entry inserted at submit time. -/
def candidateMessage (id : Nat) (finalMessage : String) (now : Int) : Message :=
  { id := id, role := "candidate", content := finalMessage, timestamp := now }

/-- The ephemeral typing-indicator placeholder inserted right after the
optimistic insert. -/
def typingMessage (id : Nat) (now : Int) : Message :=
  { id := id, role := "assistant", content := "", timestamp := now, isTyping := true }

/-- The assistant entry built from the 2xx REST response. -/
def assistantMessage (id : Nat) (response : String) (now : Int)
    (media : Option MediaData) : Message :=
  { id := id, role := "assistant", content := response, timestamp := now,
    media_data := media }

/-- Success continuation of `handleSubmit` (lines 580-617), applied to the
transcript at the time the 2xx response arrives: first the typing
placeholders are dropped (line 580), then every candidate entry with the
submitted content is filtered out and the assistant reply is appended unless
an equal assistant entry (same content and `media_data`, not typing) is
already present (lines 601-617). -/
def handleSubmitSuccess (prev : List Message) (finalMessage response : String)
    (media : Option MediaData) (id : Nat) (now : Int) : List Message :=
  let p1 := clearTyping prev
  let filtered := p1.filter fun msg =>
    !(msg.role == "candidate" && msg.content == finalMessage)
  let isAssistantDuplicate := filtered.any fun msg =>
    msg.role == "assistant" && msg.content == response &&
      msg.media_data == media && !msg.isTyping
  if isAssistantDuplicate then filtered
  else filtered ++ [assistantMessage id response now media]

/-- Catch branch of `handleSubmit` (lines 621-629): remove every candidate
entry with the submitted content and every typing placeholder. -/
def handleSubmitCatch (prev : List Message) (finalMessage : String) : List Message :=
  prev.filter fun msg =>
    !(msg.role == "candidate" && msg.content == finalMessage) && !msg.isTyping

/-- Visible effect of the catch branch: the rolled-back transcript together
with the unconditional `toast.error` call. -/
structure SubmitFailureEffect where
  transcript : List Message
  errorToastShown : Bool
deriving DecidableEq, Repr

/-- Catch branch of `handleSubmit` with its toast side effect. -/
def handleSubmitCatchEffect (prev : List Message) (finalMessage : String) :
    SubmitFailureEffect :=
  { transcript := handleSubmitCatch prev finalMessage, errorToastShown := true }

/-- Decidable ghost test: does the transcript still hold a candidate entry
with the given content. -/
def hasGhost (l : List Message) (content : String) : Bool :=
  l.any fun msg => msg.role == "candidate" && msg.content == content

/-- Decidable test for a remaining typing placeholder. -/
def hasTyping (l : List Message) : Bool :=
  l.any fun msg => msg.isTyping

/-! ## Voice WebSocket reconnection controller (part_007 lines 62-149,
VoiceInteraction.tsx lines 37-111) -/

/-- Errors surfaced via `setError` by the voice WebSocket `onclose`. -/
inductive VoiceError
  | sessionInvalid
  | reconnectFailed
deriving DecidableEq, Repr

/-- `maxReconnectAttempts = 3` of the source. -/
def maxReconnectAttempts : Nat := 3

/-- `reconnectInterval = 7000` (ms) of the source. -/
def reconnectIntervalMs : Nat := 7000

/-- Observable state of the reconnection controller: the mutable
`reconnectAttempts.current` ref, whether the current socket has fired
`onopen` (in which case its `onclose` has been replaced, see
`voiceOnOpen`), the delays of every retry timer scheduled so far, and every
error surfaced so far, in order. -/
structure ReconnState where
  reconnectAttempts : Nat
  socketOpened : Bool
  scheduledRetryDelays : List Nat
  errors : List VoiceError
deriving DecidableEq, Repr

/-- Initial controller state: `reconnectAttempts.current = 0`, a freshly
created socket whose handlers are the ones installed by `connectWebSocket`
(its `onopen` has not fired), nothing scheduled, no error. -/
def initReconnState : ReconnState :=
  { reconnectAttempts := 0, socketOpened := false, scheduledRetryDelays := [],
    errors := [] }

/-- `onopen` handler (part_007 lines 66-76, VoiceInteraction.tsx lines
41-51): resets `reconnectAttempts.current` to 0 and then reassigns
`socketRef.current.onclose = () => clearInterval(pingInterval)`, replacing
the retry/1008 close handler of this socket by one that only clears the
ping interval. -/
def voiceOnOpen (s : ReconnState) : ReconnState :=
  { s with reconnectAttempts := 0, socketOpened := true }

/-- Close-event dispatch.  On a socket that has fired `onopen`, the handler
installed at open time runs: it only clears the ping interval — no retry is
scheduled and no error is surfaced, whatever the code.  On a socket that
never opened, the handler installed by `connectWebSocket` (part_007 lines
137-148) runs: code 1008 surfaces the fatal session-invalid error and
schedules nothing; otherwise, while below `maxReconnectAttempts`, it
increments the counter and schedules one retry timer at the flat interval
(the retried `connectWebSocket` installs fresh handlers, so the next socket
again starts unopened); at the bound it surfaces one failed-to-reconnect
error and schedules nothing. -/
def voiceOnClose (s : ReconnState) (code : Nat) : ReconnState :=
  if s.socketOpened then s
  else if code == 1008 then
    { s with errors := s.errors ++ [VoiceError.sessionInvalid] }
  else if s.reconnectAttempts < maxReconnectAttempts then
    { s with reconnectAttempts := s.reconnectAttempts + 1,
             scheduledRetryDelays := s.scheduledRetryDelays ++ [reconnectIntervalMs] }
  else
    { s with errors := s.errors ++ [VoiceError.reconnectFailed] }

/-- Lifecycle events delivered to the controller. -/
inductive WsEvent
  | opened
  | closed (code : Nat)
deriving DecidableEq, Repr

/-- One controller step. -/
def voiceWsStep (s : ReconnState) (e : WsEvent) : ReconnState :=
  match e with
  | .opened => voiceOnOpen s
  | .closed code => voiceOnClose s code

/-- A run of the controller from the initial state. -/
def runVoiceWs (evs : List WsEvent) : ReconnState :=
  evs.foldl voiceWsStep initReconnState

/-- Number of user-facing failed-to-reconnect notifications emitted. -/
def failureToastCount (s : ReconnState) : Nat :=
  (s.errors.filter fun e => e == VoiceError.reconnectFailed).length

/-! ## Voice-activity detection loop (part_007 `analyseAudio`, lines 192-242) -/

/-- RMS voice threshold 0.02 of the source, written as the reduced fraction
1/50 (see `vadThreshold_eq_one_fiftieth`). -/
def vadThreshold : Rat := ⟨1, 50, by decide, by decide⟩

/-- Trailing-silence timer duration 3000 ms of the source. -/
def silenceTimeoutMs : Nat := 3000

/-- VAD engine state: the `isSpeakingRef` / `isSilencePendingRef` flags, the
pending trailing-silence timer (absolute firing time in ms, `none` when not
armed), and the number of utterances finalized and flushed so far
(`processUtterance` calls). -/
structure VadState where
  isSpeaking : Bool
  isSilencePending : Bool
  silenceDeadline : Option Nat
  utterancesFlushed : Nat
deriving DecidableEq, Repr

/-- Initial VAD state set up by `startContinuous`. -/
def initVadState : VadState :=
  { isSpeaking := false, isSilencePending := false, silenceDeadline := none,
    utterancesFlushed := 0 }

/-- Firing of the 3000 ms trailing-silence `setTimeout` (lines 230-236):
once its deadline has passed, the utterance is finalized and flushed
(`processUtterance`) and both flags reset. -/
def vadFireTimer (s : VadState) (now : Nat) : VadState :=
  match s.silenceDeadline with
  | some d =>
      if d ≤ now then
        { isSpeaking := false, isSilencePending := false, silenceDeadline := none,
          utterancesFlushed := s.utterancesFlushed + 1 }
      else s
  | none => s

/-- One iteration of `analyseAudio` at time `now` with the computed RMS
value: any elapsed silence timer fires first, then the threshold transitions
of lines 203-238 apply (silence-to-voice starts an utterance,
pending-silence-to-voice cancels the timer and continues the same
utterance, voice-to-silence arms the 3000 ms timer). -/
def vadSample (s : VadState) (now : Nat) (rms : Rat) : VadState :=
  let s := vadFireTimer s now
  let nowSpeaking := vadThreshold < rms
  if nowSpeaking then
    if !s.isSpeaking && !s.isSilencePending then
      { s with isSpeaking := true }
    else if s.isSilencePending then
      { s with isSilencePending := false, isSpeaking := true, silenceDeadline := none }
    else s
  else
    if s.isSpeaking then
      { s with isSpeaking := false, isSilencePending := true,
               silenceDeadline := some (now + silenceTimeoutMs) }
    else s

/-- A run of the VAD loop over timed RMS samples. -/
def runVad (samples : List (Nat × Rat)) : VadState :=
  samples.foldl (fun s p => vadSample s p.1 p.2) initVadState

/-- Synthetic energy signal, sampled every 500 ms: voice (RMS 1), a 2000 ms
dip below threshold (RMS 0), voice again, then terminal silence. -/
def dipSignal2000 : List (Nat × Rat) :=
  [(0, 1), (500, 1),
   (1000, 0), (1500, 0), (2000, 0), (2500, 0),
   (3000, 1), (3500, 1),
   (4000, 0), (4500, 0), (5000, 0), (5500, 0), (6000, 0), (6500, 0), (7000, 0)]

/-- Synthetic energy signal, sampled every 500 ms: voice (RMS 1), a 3500 ms
dip below threshold (RMS 0), voice again, then terminal silence. -/
def dipSignal3500 : List (Nat × Rat) :=
  [(0, 1), (500, 1),
   (1000, 0), (1500, 0), (2000, 0), (2500, 0), (3000, 0), (3500, 0), (4000, 0),
   (4500, 1), (5000, 1),
   (5500, 0), (6000, 0), (6500, 0), (7000, 0), (7500, 0), (8000, 0), (8500, 0)]

/-! ## Voice playback sequencer (part_007) -/

/-- The `currentAudioType` slot: which audio is assigned to the single
`<audio>` element. -/
inductive AudioType
  | noAudio
  | preliminary
  | delay
  | response
deriving DecidableEq, Repr

/-- Sequencer state: the playback slot, the play/pause flags, the
round-trip-in-flight flag, whether the 4000 ms secondary-filler
`setTimeout` (`secondaryTimeoutRef`) is pending, and whether the single
`<audio>` element is mounted (`audioRef.current` non-null; it is null once
the component renders its error screen). -/
structure PlaybackState where
  currentAudioType : AudioType
  isPlaying : Bool
  isPaused : Bool
  isProcessing : Bool
  secondaryTimerPending : Bool
  audioElementPresent : Bool
deriving DecidableEq, Repr

/-- `playPreliminaryResponse` (lines 347-367): under the
`if (audioRef.current)` guard, assign the filler clip to the audio element
and play it; with no audio element, do nothing. -/
def playPreliminary (s : PlaybackState) : PlaybackState :=
  if s.audioElementPresent then
    { s with currentAudioType := .preliminary, isPlaying := true, isPaused := false }
  else s

/-- Arrival of the real assistant audio frame in the voice socket
`onmessage` (lines 98-119): under the `if (audioRef.current)` guard, clear
any pending secondary-filler timer, assign the response to the audio
element and play it; with no audio element, nothing happens — in
particular a pending secondary-filler timer is not cleared. -/
def onVoiceResponse (s : PlaybackState) : PlaybackState :=
  if s.audioElementPresent then
    { s with secondaryTimerPending := false, currentAudioType := .response,
             isPlaying := true, isPaused := false }
  else s

/-- `handleAudioEnded` (lines 424-443): clear the play/pause flags; while
processing, a finished preliminary clip arms the 4000 ms secondary-filler
timer and a finished response ends processing; finally the slot is cleared. -/
def handleAudioEnded (s : PlaybackState) : PlaybackState :=
  let s1 := { s with isPlaying := false, isPaused := false }
  let s2 :=
    if s1.isProcessing then
      match s1.currentAudioType with
      | .preliminary => { s1 with secondaryTimerPending := true }
      | .delay => s1
      | .response => { s1 with isProcessing := false }
      | .noAudio => s1
    else s1
  { s2 with currentAudioType := .noAudio }

/-- Firing of the 4000 ms secondary-filler timer (lines 430-434): if still
processing, play the delay filler (`playDelayResponse`, itself guarded by
`if (audioRef.current)`, lines 369-386). -/
def secondaryTimerFire (s : PlaybackState) : PlaybackState :=
  if s.secondaryTimerPending then
    let s1 := { s with secondaryTimerPending := false }
    if s1.isProcessing && s1.audioElementPresent then
      { s1 with currentAudioType := .delay, isPlaying := true, isPaused := false }
    else s1
  else s

/-- `stopResponse` (lines 396-408): under the `if (audioRef.current)`
guard, stop, clear the slot and cancel the pending secondary timer. -/
def stopPlayback (s : PlaybackState) : PlaybackState :=
  if s.audioElementPresent then
    { s with isPlaying := false, isPaused := false, currentAudioType := .noAudio,
             secondaryTimerPending := false }
  else s

/-- Number of pending secondary-filler timers. -/
def pendingTimerCount (s : PlaybackState) : Nat :=
  if s.secondaryTimerPending then 1 else 0

/-- Number of playback slots active on the single audio element. -/
def activePlaybackCount (s : PlaybackState) : Nat :=
  if s.currentAudioType = .noAudio then 0 else 1

/-! ## No-response timeout of `processUtterance` (part_007 lines 330-337)
and of the push-to-talk `onstop` (VoiceInteraction.tsx lines 209-214) -/

/-- The 15000 ms hard timeout of continuous mode. -/
def noResponseTimeoutMs : Nat := 15000

/-- The 10000 ms hard timeout of push-to-talk mode. -/
def pushToTalkTimeoutMs : Nat := 10000

/-- UI state relevant to the no-response timeout. -/
structure VoiceProcState where
  isProcessing : Bool
  noResponseErrorShown : Bool
deriving DecidableEq, Repr

/-- Sending a finalized utterance: `setIsProcessing(true)` then
`setTimeout(...)`.  The scheduled callback closes over the `isProcessing`
React state value of the render that created `processUtterance` — the value
before `setIsProcessing(true)` took effect — returned here as the second
component. -/
def processUtteranceSend (s : VoiceProcState) : VoiceProcState × Bool :=
  ({ s with isProcessing := true }, s.isProcessing)

/-- Body of the no-response timeout callback: `if (isProcessing) ...` reads
the captured value, not the live state; only when the captured value is true
does it surface the error and reset `isProcessing`. -/
def noResponseTimeoutFire (captured : Bool) (s : VoiceProcState) : VoiceProcState :=
  if captured then { isProcessing := false, noResponseErrorShown := true } else s

/-! ## Filler-clip rotation (part_007 lines 47-60, 277-367) -/

/-- The fixed rotation of six preliminary filler clips. -/
def preliminaryAudios : List String :=
  ["/static/preliminary_response.mp3",
   "/static/preliminary_response_a.mp3",
   "/static/preliminary_response_b.mp3",
   "/static/preliminary_response_c.mp3",
   "/static/preliminary_response_d.mp3",
   "/static/preliminary_response_e.mp3"]

/-- `getNextPreliminaryAudio`: `preliminaryAudios[queryCount % length]`. -/
def getNextPreliminaryAudio (queryCount : Nat) : String :=
  (preliminaryAudios.get? (queryCount % preliminaryAudios.length)).getD ""

/-- What one utterance flush sends and plays. -/
structure UtterancePayload where
  sentQueryCount : Nat
  clip : String
deriving DecidableEq, Repr

/-- `processUtterance` plus `playPreliminaryResponse` for one utterance:
the WebSocket payload carries `queryCount + 1`, while the filler clip is
chosen from the pre-increment `queryCount` (the value captured at the
render that created the callbacks). -/
def utteranceFillerChoice (queryCount : Nat) : UtterancePayload :=
  { sentQueryCount := queryCount + 1,
    clip := getNextPreliminaryAudio queryCount }

/-- Clip choice as the specification words it (refinement target for C8):
the clip at index `utteranceIndex mod N`, where `utteranceIndex` is the
sequence counter sent with the audio payload. -/
def specClipChoice (utteranceIndex : Nat) : String :=
  (preliminaryAudios.get? (utteranceIndex % preliminaryAudios.length)).getD ""

/-! ## End-to-end successful candidate submit (C9) -/

/-- A message as constructed by the candidate page `ws.onmessage` from a
server push frame. -/
def wsPushMessage (id : Nat) (role content : String) (ts : Int)
    (media : Option MediaData) : Message :=
  { id := id, role := role, content := content, timestamp := ts,
    media_data := media }

/-- Number of transcript entries with the given role and content. -/
def countRoleContent (l : List Message) (role content : String) : Nat :=
  l.countP fun msg => msg.role == role && msg.content == content

/-- A successful candidate submit, end to end: optimistic insert, typing
placeholder, 2xx success continuation, then the server's WebSocket fan-out
echo of the candidate message followed by the echo of the assistant reply. -/
def candidateSubmitRun (prev : List Message) (q r : String)
    (media : Option MediaData) (cid tid aid eid1 eid2 : Nat)
    (t0 t1 t2 t3 t4 : Int) : List Message :=
  let s1 := prev ++ [candidateMessage cid q t0]
  let s2 := s1 ++ [typingMessage tid t1]
  let s3 := handleSubmitSuccess s2 q r media aid t2
  let s4 := wsInsertCandidate s3 (wsPushMessage eid1 "candidate" q t3 none)
  wsInsertCandidate s4 (wsPushMessage eid2 "assistant" r t4 media)

/-- Concrete controller state used in witnesses: two retry attempts used on
a socket that has not opened. -/
def exReconnState : ReconnState :=
  { reconnectAttempts := 2, socketOpened := false,
    scheduledRetryDelays := [7000, 7000], errors := [] }

/-- Concrete sequencer state used in witnesses: preliminary filler playing,
secondary timer pending, audio element mounted, round trip in flight. -/
def exPlaybackState : PlaybackState :=
  { currentAudioType := AudioType.preliminary, isPlaying := true,
    isPaused := false, isProcessing := true, secondaryTimerPending := true,
    audioElementPresent := true }

/-- Concrete sequencer state used in the playback counterexample: the
preliminary clip has ended (slot cleared) and armed the secondary timer,
the round trip is still in flight, and the audio element has been unmounted
by the error screen. -/
def exPlaybackStateNoAudio : PlaybackState :=
  { currentAudioType := AudioType.noAudio, isPlaying := false,
    isPaused := false, isProcessing := true, secondaryTimerPending := true,
    audioElementPresent := false }

/-- Concrete transcript entry used in counterexamples and witnesses. -/
def exMsgA : Message :=
  { id := 0, role := "candidate", content := "hi", timestamp := 0 }

/-- Same role and content as `exMsgA`, with a timestamp 5000 ms later. -/
def exMsgB : Message :=
  { id := 1, role := "candidate", content := "hi", timestamp := 5000 }

/-! # Theorems -/

/-- Sanity check: the embedded threshold is the source's 0.02. -/
theorem vadThreshold_eq_one_fiftieth : vadThreshold = 1 / 50 := by
  apply Rat.ext <;> simp [vadThreshold]

/-- Characterization of the timestamp-window duplicate test. -/
theorem isDuplicateTs_iff (prev : List Message) (m : Message) :
    isDuplicateTs prev m = true ↔
      ∃ e ∈ prev, e.role = m.role ∧ e.content = m.content ∧
        (e.timestamp - m.timestamp).natAbs < 1000 := by
  simp [isDuplicateTs, List.any_eq_true, Bool.and_eq_true, beq_iff_eq,
    decide_eq_true_eq, and_assoc]

/-- Characterization of the media-equality duplicate test. -/
theorem isDuplicateMedia_iff (prev : List Message) (m : Message) :
    isDuplicateMedia prev m = true ↔
      ∃ e ∈ prev, e.role = m.role ∧ e.content = m.content ∧
        e.media_data = m.media_data := by
  simp [isDuplicateMedia, List.any_eq_true, Bool.and_eq_true, beq_iff_eq,
    and_assoc]

/-- The ChatLayout WebSocket insert leaves the transcript unchanged exactly
on the duplicate test. -/
theorem wsInsertChatLayout_eq_self_iff (prev : List Message) (m : Message) :
    wsInsertChatLayout prev m = prev ↔ isDuplicateTs prev m = true := by
  unfold wsInsertChatLayout
  cases hd : isDuplicateTs prev m <;> simp [hd]

/-- The candidate-page WebSocket insert returns the typing-stripped
transcript unchanged exactly on its duplicate test. -/
theorem wsInsertCandidate_eq_clear_iff (prev : List Message) (m : Message) :
    wsInsertCandidate prev m = clearTyping prev ↔
      isDuplicateMedia (clearTyping prev) m = true := by
  unfold wsInsertCandidate
  cases hd : isDuplicateMedia (clearTyping prev) m <;> simp [hd]

/-- C1 (counterexample): on the candidate page, an incoming WebSocket
message whose role and content match an existing entry is discarded even
though its timestamp is 5000 ms away — outside the claimed tolerance window
(ΔT = 1000 ms), under which the claim requires it to be appended.  The
claimed "discard exactly when |E.timestamp − M.timestamp| < ΔT" rule
therefore fails at that call site. -/
theorem dedup_timestamp_window_counterexample :
    wsInsertCandidate [exMsgA] exMsgB = [exMsgA] ∧
    specIsDuplicate [exMsgA] exMsgB 1000 = false ∧
    wsInsertCandidate [exMsgA] exMsgB ≠ clearTyping [exMsgA] ++ [exMsgB] := by
  decide

/-- C1 (amended): the Reconciler either discards an incoming message,
leaving the (typing-stripped, at the candidate site) transcript unchanged,
or appends it at the tail, and the duplicate test is per call site: at the
ChatLayout WebSocket site a message is discarded exactly when some existing
entry matches its role and content with timestamps less than 1000 ms apart
(no `media_data` condition); at the candidate-page WebSocket site it is
discarded exactly when some existing non-typing entry matches its role,
content and `media_data` structurally, with no timestamp window.
Consequently delivering the same message twice at the ChatLayout site
yields exactly one transcript entry. -/
theorem dedup_per_call_site :
    (∀ (prev : List Message) (m : Message),
      (wsInsertChatLayout prev m = prev ↔
        ∃ e ∈ prev, e.role = m.role ∧ e.content = m.content ∧
          (e.timestamp - m.timestamp).natAbs < 1000) ∧
      (wsInsertChatLayout prev m = prev ∨
        wsInsertChatLayout prev m = prev ++ [m])) ∧
    (∀ (prev : List Message) (m : Message),
      (wsInsertCandidate prev m = clearTyping prev ↔
        ∃ e ∈ clearTyping prev, e.role = m.role ∧ e.content = m.content ∧
          e.media_data = m.media_data) ∧
      (wsInsertCandidate prev m = clearTyping prev ∨
        wsInsertCandidate prev m = clearTyping prev ++ [m])) ∧
    (∀ (prev : List Message) (m : Message),
      wsInsertChatLayout (wsInsertChatLayout prev m) m = wsInsertChatLayout prev m) := by
  refine ⟨fun prev m => ⟨?_, ?_⟩, fun prev m => ⟨?_, ?_⟩, fun prev m => ?_⟩
  · rw [wsInsertChatLayout_eq_self_iff]
    exact isDuplicateTs_iff prev m
  · unfold wsInsertChatLayout
    cases hd : isDuplicateTs prev m <;> simp [hd]
  · rw [wsInsertCandidate_eq_clear_iff]
    exact isDuplicateMedia_iff _ m
  · unfold wsInsertCandidate
    cases hd : isDuplicateMedia (clearTyping prev) m <;> simp [hd]
  · by_cases hd : isDuplicateTs prev m = true
    · simp [wsInsertChatLayout, hd]
    · rw [Bool.not_eq_true] at hd
      have hd2 : isDuplicateTs (prev ++ [m]) m = true :=
        (isDuplicateTs_iff _ m).mpr ⟨m, by simp, rfl, rfl, by simp⟩
      simp [wsInsertChatLayout, hd, hd2]

/-- C10: `addMessage` leaves the transcript of the currently selected
session completely unchanged whenever the target session differs from the
selected one. -/
theorem addMessage_other_session_frame
    (selectedSession : Option String) (sessionId : String)
    (prev : List Message) (m : Message)
    (h : selectedSession ≠ some sessionId) :
    addMessage selectedSession sessionId prev m = prev := by
  have hb : (selectedSession == some sessionId) = false := by
    simpa using h
  simp [addMessage, hb]

/-- C10 witness: a concrete message addressed to a non-selected session is
dropped. -/
theorem addMessage_other_session_frame_witness :
    addMessage (some "abc-123") "xyz-789" [exMsgA] exMsgB = [exMsgA] :=
  addMessage_other_session_frame (some "abc-123") "xyz-789" [exMsgA] exMsgB
    (by decide)

/-- Any-over-filter vanishes when the kept elements never satisfy the
tested predicate. -/
theorem any_filter_false {l : List Message} {p q : Message → Bool}
    (h : ∀ a, p a = true → q a = false) : (l.filter p).any q = false := by
  rw [List.any_eq_false]
  intro x hx
  have hp := (List.mem_filter.mp hx).2
  simp [h x hp]

/-- Stripping typing placeholders leaves no typing placeholder. -/
theorem hasTyping_clearTyping (l : List Message) :
    hasTyping (clearTyping l) = false := by
  apply any_filter_false
  intro a ha
  simpa using ha

/-- Filtering cannot introduce a typing placeholder. -/
theorem hasTyping_filter (l : List Message) (p : Message → Bool)
    (h : hasTyping l = false) : hasTyping (l.filter p) = false := by
  rw [hasTyping, List.any_eq_false] at *
  intro x hx
  exact h x (List.mem_filter.mp hx).1

/-- Typing placeholders in an appended transcript. -/
theorem hasTyping_append (l1 l2 : List Message) :
    hasTyping (l1 ++ l2) = (hasTyping l1 || hasTyping l2) := by
  simp [hasTyping]

/-- C2: the catch branch of a failed submit removes every candidate entry
with the submitted content and every typing placeholder and surfaces an
error toast, so no ghost message remains; and the success branch likewise
never leaves a typing placeholder (it strips them before appending the real
assistant entry). -/
theorem submit_error_rollback (prev : List Message)
    (finalMessage response : String) (media : Option MediaData)
    (id : Nat) (now : Int) :
    hasGhost (handleSubmitCatch prev finalMessage) finalMessage = false ∧
    hasTyping (handleSubmitCatch prev finalMessage) = false ∧
    (handleSubmitCatchEffect prev finalMessage).errorToastShown = true ∧
    (handleSubmitCatchEffect prev finalMessage).transcript =
      handleSubmitCatch prev finalMessage ∧
    hasTyping (handleSubmitSuccess prev finalMessage response media id now) = false := by
  refine ⟨?_, ?_, rfl, rfl, ?_⟩
  · apply any_filter_false
    intro a ha
    simp only [Bool.and_eq_true, Bool.not_eq_true'] at ha
    exact ha.1
  · apply any_filter_false
    intro a ha
    simp only [Bool.and_eq_true, Bool.not_eq_true'] at ha
    exact ha.2
  · have h1 : hasTyping ((clearTyping prev).filter fun msg =>
        !(msg.role == "candidate" && msg.content == finalMessage)) = false :=
      hasTyping_filter _ _ (hasTyping_clearTyping prev)
    unfold handleSubmitSuccess
    dsimp only
    split
    · exact h1
    · rw [hasTyping_append, h1]
      simp [hasTyping, assistantMessage]

/-- C3 (counterexample): a run of exactly 3 consecutive abnormal closures
(code 1006 ≠ 1008) schedules 3 retry timers but emits no user-facing
failure notification at all and surfaces no error — the controller is not
Terminal after ≤ 3 abnormal closures, contradicting the claim that it
"attempts exactly 3 reconnects, then transitions to Terminal and emits
exactly one failure notification". -/
theorem reconnect_three_closures_counterexample :
    (runVoiceWs (List.replicate 3 (WsEvent.closed 1006))).scheduledRetryDelays =
      [7000, 7000, 7000] ∧
    failureToastCount (runVoiceWs (List.replicate 3 (WsEvent.closed 1006))) = 0 ∧
    (runVoiceWs (List.replicate 3 (WsEvent.closed 1006))).errors = [] := by
  decide

/-- C3 (amended): retries are only scheduled by sockets that never fired
`onopen`: a run of 4 consecutive abnormal closures on never-opened sockets
schedules exactly 3 retries, each after the fixed flat 7000 ms interval,
and the 4th closure schedules nothing and emits exactly one user-facing
failure notification.  A successful open resets the retry counter to zero
but also replaces the socket's close handler with the ping-cleanup-only
handler, so an abnormal closure after a successful open schedules no retry
and surfaces nothing at all. -/
theorem reconnect_bound_amended (code : Nat) (s : ReconnState)
    (h : code ≠ 1008) :
    (runVoiceWs (List.replicate 4 (WsEvent.closed code))).scheduledRetryDelays =
      [reconnectIntervalMs, reconnectIntervalMs, reconnectIntervalMs] ∧
    (runVoiceWs (List.replicate 4 (WsEvent.closed code))).errors =
      [VoiceError.reconnectFailed] ∧
    failureToastCount (runVoiceWs (List.replicate 4 (WsEvent.closed code))) = 1 ∧
    (voiceWsStep s WsEvent.opened).reconnectAttempts = 0 ∧
    voiceOnClose (voiceOnOpen s) code = voiceOnOpen s := by
  have hc : (code == 1008) = false := by simpa using h
  refine ⟨?_, ?_, ?_, rfl, ?_⟩ <;>
    simp [runVoiceWs, voiceWsStep, voiceOnClose, voiceOnOpen, initReconnState,
      hc, maxReconnectAttempts, reconnectIntervalMs, List.replicate,
      failureToastCount]

/-- C3 witness: the amended bound at close code 1006 and a controller state
with two attempts used. -/
theorem reconnect_bound_amended_witness :
    (runVoiceWs (List.replicate 4 (WsEvent.closed 1006))).scheduledRetryDelays =
      [reconnectIntervalMs, reconnectIntervalMs, reconnectIntervalMs] ∧
    (runVoiceWs (List.replicate 4 (WsEvent.closed 1006))).errors =
      [VoiceError.reconnectFailed] ∧
    failureToastCount (runVoiceWs (List.replicate 4 (WsEvent.closed 1006))) = 1 ∧
    (voiceWsStep exReconnState WsEvent.opened).reconnectAttempts = 0 ∧
    voiceOnClose (voiceOnOpen exReconnState) 1006 = voiceOnOpen exReconnState :=
  reconnect_bound_amended 1006 exReconnState (by decide)

/-- C4 (counterexample): every realizable 1008 close happens on a socket
whose `onopen` has fired, and `onopen` replaced its close handler with the
ping-cleanup-only one — so such a close surfaces no session-invalid error
and changes nothing, contradicting the claim that a fatal session-invalid
error is surfaced. -/
theorem close1008_after_open_counterexample :
    voiceOnClose (voiceOnOpen initReconnState) 1008 = voiceOnOpen initReconnState ∧
    (voiceOnClose (voiceOnOpen initReconnState) 1008).errors = [] ∧
    (voiceOnClose (voiceOnOpen initReconnState) 1008).scheduledRetryDelays = [] := by
  decide

/-- C4 (amended): a close with code 1008 never schedules a retry timer and
never touches the retry counter, in every controller state; the fatal
session-invalid error is surfaced only when the socket never opened — on an
opened socket (which every realizable 1008 close requires) the replaced
close handler leaves the state unchanged and surfaces nothing. -/
theorem close1008_never_retries (s : ReconnState) :
    (voiceOnClose s 1008).scheduledRetryDelays = s.scheduledRetryDelays ∧
    (voiceOnClose s 1008).reconnectAttempts = s.reconnectAttempts ∧
    (voiceOnClose s 1008).errors =
      (if s.socketOpened then s.errors
       else s.errors ++ [VoiceError.sessionInvalid]) ∧
    voiceOnClose (voiceOnOpen s) 1008 = voiceOnOpen s := by
  cases h : s.socketOpened <;> simp [voiceOnClose, voiceOnOpen, h]

/-- C5: in continuous voice mode, a sample below the 0.02 threshold during
an active utterance arms the 3000 ms trailing-silence timer; a sample above
threshold before the deadline cancels the timer and continues the same
utterance (no new flush); once the deadline passes the utterance is
finalized and flushed and the engine resets to idle.  Consequently the
synthetic signal with a 2000 ms dip yields one utterance and the one with a
3500 ms dip yields two. -/
theorem vad_utterance_bridging :
    (∀ (s : VadState) (now : Nat) (rms : Rat),
      s.isSpeaking = true → s.silenceDeadline = none → rms ≤ vadThreshold →
      vadSample s now rms =
        { s with isSpeaking := false, isSilencePending := true,
                 silenceDeadline := some (now + silenceTimeoutMs) }) ∧
    (∀ (s : VadState) (now : Nat) (rms : Rat) (d : Nat),
      s.isSilencePending = true → s.isSpeaking = false →
      s.silenceDeadline = some d → now < d → vadThreshold < rms →
      vadSample s now rms =
        { s with isSpeaking := true, isSilencePending := false,
                 silenceDeadline := none }) ∧
    (∀ (s : VadState) (now : Nat) (rms : Rat) (d : Nat),
      s.silenceDeadline = some d → d ≤ now → rms ≤ vadThreshold →
      vadSample s now rms =
        { isSpeaking := false, isSilencePending := false,
          silenceDeadline := none,
          utterancesFlushed := s.utterancesFlushed + 1 }) ∧
    (runVad dipSignal2000).utterancesFlushed = 1 ∧
    (runVad dipSignal3500).utterancesFlushed = 2 := by
  refine ⟨?_, ?_, ?_, by decide, by decide⟩
  · intro s now rms h1 h2 h3
    have hlt : ¬ vadThreshold < rms := not_lt.mpr h3
    simp [vadSample, vadFireTimer, h1, h2, hlt]
  · intro s now rms d h1 h2 h3 h4 h5
    have hnot : ¬ d ≤ now := not_le.mpr h4
    simp [vadSample, vadFireTimer, h1, h2, h3, hnot, h5]
  · intro s now rms d h1 h2 h3
    have hlt : ¬ vadThreshold < rms := not_lt.mpr h3
    simp [vadSample, vadFireTimer, h1, h2, hlt]

/-- C5 witness: the three transitions at concrete states — arming the timer
at 1000 ms, cancelling it on voice at 3000 ms, firing it at its 4000 ms
deadline. -/
theorem vad_utterance_bridging_witness :
    vadSample ⟨true, false, none, 0⟩ 1000 0 = ⟨false, true, some 4000, 0⟩ ∧
    vadSample ⟨false, true, some 4000, 0⟩ 3000 1 = ⟨true, false, none, 0⟩ ∧
    vadSample ⟨false, true, some 4000, 3⟩ 4000 0 = ⟨false, false, none, 4⟩ := by
  refine ⟨?_, ?_, ?_⟩
  · exact vad_utterance_bridging.1 ⟨true, false, none, 0⟩ 1000 0 rfl rfl
      (by decide)
  · exact vad_utterance_bridging.2.1 ⟨false, true, some 4000, 0⟩ 3000 1 4000
      rfl rfl rfl (by decide) (by decide)
  · exact vad_utterance_bridging.2.2.1 ⟨false, true, some 4000, 3⟩ 4000 0 4000
      rfl (by decide) (by decide)

/-- C6 (counterexample): when the audio element has been unmounted by the
error screen while a secondary-filler timer is still pending, the arrival
of the real assistant audio frame does nothing — the `if (audioRef.current)`
guard skips the handler body, the pending-timer count stays 1 instead of
returning to zero, and no response playback becomes active. -/
theorem playback_unmounted_audio_counterexample :
    onVoiceResponse exPlaybackStateNoAudio = exPlaybackStateNoAudio ∧
    pendingTimerCount (onVoiceResponse exPlaybackStateNoAudio) = 1 ∧
    (onVoiceResponse exPlaybackStateNoAudio).currentAudioType ≠
      AudioType.response := by
  decide

/-- C6 (amended): when the assistant's real audio frame arrives and the
audio element is mounted — in particular while the preliminary filler is
playing or while the secondary-filler timer is pending — the pending
secondary-filler timer is cancelled (the pending-timer count returns to
zero) and the response is the single active playback; when the audio
element is absent the handler does nothing and a pending timer survives;
and the single audio element carries at most one active slot in every
state. -/
theorem playback_response_preemption (s : PlaybackState) :
    (s.audioElementPresent = true →
      pendingTimerCount (onVoiceResponse s) = 0 ∧
      (onVoiceResponse s).currentAudioType = AudioType.response ∧
      activePlaybackCount (onVoiceResponse s) = 1) ∧
    (s.audioElementPresent = false → onVoiceResponse s = s) ∧
    activePlaybackCount s ≤ 1 := by
  refine ⟨fun h => ?_, fun h => ?_, ?_⟩
  · simp [onVoiceResponse, h, pendingTimerCount, activePlaybackCount]
  · simp [onVoiceResponse, h]
  · unfold activePlaybackCount
    split <;> simp

/-- C6 witness: the preemption at the concrete state with the preliminary
filler playing and the secondary timer pending. -/
theorem playback_response_preemption_witness :
    pendingTimerCount (onVoiceResponse exPlaybackState) = 0 ∧
    (onVoiceResponse exPlaybackState).currentAudioType = AudioType.response ∧
    activePlaybackCount (onVoiceResponse exPlaybackState) = 1 :=
  (playback_response_preemption exPlaybackState).1 rfl

/-- C7 (code bug): the no-response timeout callback guards on the
`isProcessing` value captured when the callback closure was created, which
is `false` for an utterance sent from active capture; so when no response
has arrived at the 15000 ms (continuous) / 10000 ms (push-to-talk)
deadline, the callback leaves the state unchanged: no error is surfaced and
`isProcessing` stays true.  The last conjunct shows what the claimed
behaviour would require of the fire step on the live state. -/
theorem no_response_timeout_stuck :
    (processUtteranceSend ⟨false, false⟩).1.isProcessing = true ∧
    (processUtteranceSend ⟨false, false⟩).2 = false ∧
    noResponseTimeoutFire (processUtteranceSend ⟨false, false⟩).2
      (processUtteranceSend ⟨false, false⟩).1 = ⟨true, false⟩ ∧
    noResponseTimeoutFire true ⟨true, false⟩ = ⟨false, true⟩ := by
  decide

/-- Distinct indices below six select distinct preliminary clips. -/
theorem preliminaryAudios_injOn :
    ∀ i < 6, ∀ j < 6, i ≠ j →
      (preliminaryAudios.get? i).getD "" ≠ (preliminaryAudios.get? j).getD "" := by
  decide

/-- The rotation holds six clips. -/
theorem preliminaryAudios_length : preliminaryAudios.length = 6 := rfl

/-- C8 (counterexample): for the first utterance the payload carries
query_count = 1, so by the claimed rule the clip would be the one at index
1 mod 6 — the second clip — but the code plays the clip at index 0, chosen
from the pre-increment counter. -/
theorem filler_rotation_counterexample :
    (utteranceFillerChoice 0).sentQueryCount = 1 ∧
    (utteranceFillerChoice 0).clip = "/static/preliminary_response.mp3" ∧
    specClipChoice (utteranceFillerChoice 0).sentQueryCount =
      "/static/preliminary_response_a.mp3" ∧
    (utteranceFillerChoice 0).clip ≠
      specClipChoice (utteranceFillerChoice 0).sentQueryCount := by
  decide

/-- C8 (amended): the filler clip is chosen by (query_count − 1) mod 6,
i.e. from the pre-increment counter, the payload counter increases by one
per utterance, and two consecutive utterances never play the same clip. -/
theorem filler_rotation_amended (c : Nat) :
    (utteranceFillerChoice c).sentQueryCount = c + 1 ∧
    (utteranceFillerChoice c).clip =
      specClipChoice ((utteranceFillerChoice c).sentQueryCount - 1) ∧
    (utteranceFillerChoice c).clip ≠ (utteranceFillerChoice (c + 1)).clip := by
  refine ⟨rfl, by simp [utteranceFillerChoice, specClipChoice, getNextPreliminaryAudio], ?_⟩
  have h1 : c % 6 < 6 := Nat.mod_lt _ (by decide)
  have h2 : (c + 1) % 6 < 6 := Nat.mod_lt _ (by decide)
  have hne : c % 6 ≠ (c + 1) % 6 := by omega
  have hd := preliminaryAudios_injOn (c % 6) h1 ((c + 1) % 6) h2 hne
  simpa [utteranceFillerChoice, getNextPreliminaryAudio,
    preliminaryAudios_length] using hd

/-- Typing-free transcripts are fixed by `clearTyping`. -/
theorem clearTyping_eq_self {l : List Message} (h : hasTyping l = false) :
    clearTyping l = l := by
  rw [clearTyping, List.filter_eq_self]
  rw [hasTyping, List.any_eq_false] at h
  intro a ha
  simpa using h a ha

/-- C9: a successful candidate submit followed by the WebSocket fan-out
echoes of the candidate message and of the assistant reply leaves exactly
one candidate entry with the submitted content and exactly one assistant
entry with the returned response, provided the prior transcript held
neither — the optimistic entry is not duplicated by the echo. -/
theorem candidate_submit_exactly_once (prev : List Message) (q r : String)
    (media : Option MediaData) (cid tid aid eid1 eid2 : Nat)
    (t0 t1 t2 t3 t4 : Int)
    (_hq : countRoleContent prev "candidate" q = 0)
    (hr : countRoleContent prev "assistant" r = 0) :
    countRoleContent
        (candidateSubmitRun prev q r media cid tid aid eid1 eid2 t0 t1 t2 t3 t4)
        "candidate" q = 1 ∧
    countRoleContent
        (candidateSubmitRun prev q r media cid tid aid eid1 eid2 t0 t1 t2 t3 t4)
        "assistant" r = 1 := by
  have hra : ∀ a ∈ prev, ¬(a.role == "assistant" && a.content == r) = true :=
    List.countP_eq_zero.mp hr
  have e1 : clearTyping (prev ++ [candidateMessage cid q t0] ++ [typingMessage tid t1])
      = clearTyping prev ++ [candidateMessage cid q t0] := by
    simp [clearTyping, candidateMessage, typingMessage]
  have e2 : (clearTyping prev ++ [candidateMessage cid q t0]).filter
        (fun msg => !(msg.role == "candidate" && msg.content == q))
      = (clearTyping prev).filter
        (fun msg => !(msg.role == "candidate" && msg.content == q)) := by
    simp [candidateMessage]
  set F := (clearTyping prev).filter
    (fun msg => !(msg.role == "candidate" && msg.content == q)) with hF
  have hFprev : ∀ a ∈ F, a ∈ prev := by
    intro a ha
    rw [hF] at ha
    exact (List.mem_filter.mp (List.mem_filter.mp ha).1).1
  have e3 : (F.any fun msg => msg.role == "assistant" && msg.content == r &&
        msg.media_data == media && !msg.isTyping) = false := by
    rw [List.any_eq_false]
    intro x hx hcon
    apply hra x (hFprev x hx)
    simp only [Bool.and_eq_true] at hcon ⊢
    exact hcon.1.1
  have hTF : hasTyping F = false := hasTyping_filter _ _ (hasTyping_clearTyping prev)
  have hT3 : hasTyping (F ++ [assistantMessage aid r t2 media]) = false := by
    rw [hasTyping_append, hTF]
    simp [hasTyping, assistantMessage]
  have e4 : clearTyping (F ++ [assistantMessage aid r t2 media])
      = F ++ [assistantMessage aid r t2 media] := clearTyping_eq_self hT3
  have e5 : isDuplicateMedia (F ++ [assistantMessage aid r t2 media])
      (wsPushMessage eid1 "candidate" q t3 none) = false := by
    rw [isDuplicateMedia, List.any_eq_false]
    intro x hx hcon
    simp only [wsPushMessage, Bool.and_eq_true] at hcon
    rcases List.mem_append.mp hx with hx1 | hx2
    · have hkeep := (List.mem_filter.mp hx1).2
      simp only [Bool.not_eq_true'] at hkeep
      rw [Bool.and_eq_false_iff] at hkeep
      rcases hkeep with hk | hk
      · rw [hcon.1.1] at hk
        simp at hk
      · rw [hcon.1.2] at hk
        simp at hk
    · have hx2 : x = assistantMessage aid r t2 media := by simpa using hx2
      rw [hx2] at hcon
      have := hcon.1.1
      simp [assistantMessage] at this
  have hT4 : hasTyping (F ++ [assistantMessage aid r t2 media] ++
      [wsPushMessage eid1 "candidate" q t3 none]) = false := by
    rw [hasTyping_append, hT3]
    simp [hasTyping, wsPushMessage]
  have e6 : isDuplicateMedia (F ++ [assistantMessage aid r t2 media] ++
        [wsPushMessage eid1 "candidate" q t3 none])
      (wsPushMessage eid2 "assistant" r t4 media) = true := by
    rw [isDuplicateMedia, List.any_eq_true]
    refine ⟨assistantMessage aid r t2 media, by simp, ?_⟩
    simp [assistantMessage, wsPushMessage]
  have e7 : clearTyping (F ++ [assistantMessage aid r t2 media] ++
        [wsPushMessage eid1 "candidate" q t3 none])
      = F ++ [assistantMessage aid r t2 media] ++
        [wsPushMessage eid1 "candidate" q t3 none] := clearTyping_eq_self hT4
  have hrun : candidateSubmitRun prev q r media cid tid aid eid1 eid2 t0 t1 t2 t3 t4
      = F ++ [assistantMessage aid r t2 media] ++
        [wsPushMessage eid1 "candidate" q t3 none] := by
    simp only [candidateSubmitRun, handleSubmitSuccess, wsInsertCandidate]
    rw [e1, e2]
    simp only [e3, e4, e5, e6, e7, Bool.false_eq_true, if_false, if_true]
  have hcF : List.countP (fun msg => msg.role == "candidate" && msg.content == q) F = 0 := by
    rw [hF, List.countP_filter]
    simp
  have haF : List.countP (fun msg => msg.role == "assistant" && msg.content == r) F = 0 :=
    List.countP_eq_zero.mpr fun a ha => hra a (hFprev a ha)
  rw [countRoleContent, countRoleContent, hrun]
  constructor <;>
    simp [List.countP_append, hcF, haF, List.countP_cons, assistantMessage,
      wsPushMessage]

/-- C9 witness: the spec scenario on an empty prior transcript. -/
theorem candidate_submit_exactly_once_witness :
    countRoleContent
        (candidateSubmitRun [] "What is the salary range?" "The range is X."
          none 1 2 3 4 5 10 11 12 13 14)
        "candidate" "What is the salary range?" = 1 ∧
    countRoleContent
        (candidateSubmitRun [] "What is the salary range?" "The range is X."
          none 1 2 3 4 5 10 11 12 13 14)
        "assistant" "The range is X." = 1 :=
  candidate_submit_exactly_once [] "What is the salary range?" "The range is X."
    none 1 2 3 4 5 10 11 12 13 14 (by decide) (by decide)

end QChat
